import Mathlib

/-!
Verification development for the `setup-buildx-action` sources.

The TypeScript sources are shallowly embedded here:
* `src/state-helper` (the cross-phase state store module): the setters call
  `core.saveState(key, value)`, modelled as appending a `(key, value)` pair to a
  durable state file; the module-level exports read `process.env['STATE_<key>']`
  (restored by the runner in the finalization phase from the saved state) and
  apply the exact JavaScript coercion the source uses (`!!s`, `/true/i.test(s)`,
  `s || ''`).
* `retryCommand` from `src/main.ts`: the bounded retry loop, with the command's
  per-attempt outcome supplied by an oracle `Nat → Except Unit String`.
* `getBuildkitdAddr` from the remote-builder variant of `main.ts`: the task
  creation, the 60000 ms poll loop with its 200 ms sleeps, the abandon call on
  expiry, and the 30000 ms `AbortController` timer armed at entry and cleared
  in the `finally` block (its signal is never passed to any request).
* the sticky-disk section of `main` and the whole `post` functions of both
  `main.ts` variants, as trace-producing functions over oracles describing the
  outcomes of the external commands (`lsblk`, `mount`, `pkill`, `umount`,
  `buildx` invocations, filesystem checks).

Machine integers do not occur; all counters and durations are `Nat`
(millisecond counts in the source are small and never overflow).
-/

set_option autoImplicit false

namespace SetupBuildx

/-! ## String utilities mirroring the JavaScript primitives used by the source -/

/-- The `hasPfx pat s` : `pat` is a prefix of `s` (on character lists). -/
def hasPfx : List Char → List Char → Bool
  | [], _ => true
  | _ :: _, [] => false
  | a :: as, b :: bs => a == b && hasPfx as bs

/-- The `containsL s pat` : `pat` occurs as a contiguous substring of `s`
(on character lists), like JavaScript `s.includes(pat)`. -/
def containsL : List Char → List Char → Bool
  | [], pat => hasPfx pat []
  | s@(_ :: t), pat => hasPfx pat s || containsL t pat

/-- JavaScript `s.includes(pat)`. -/
def containsSubstr (s pat : String) : Bool :=
  containsL s.data pat.data

/-- Lower-casing a string, character by character (for the `/true/i` regex). -/
def lowerStr (s : String) : String :=
  String.mk (s.data.map Char.toLower)

/-- JavaScript truthiness of an optional environment string: `!!process.env[k]`
is `false` exactly when the variable is unset or the empty string. -/
def jsTruthy : Option String → Bool
  | none => false
  | some v => v != ""

/-- JavaScript `process.env[k] || ''`: the string, or `""` when unset
(an empty-string value is falsy and also yields `""`). -/
def envOrEmpty : Option String → String
  | none => ""
  | some v => v

/-- The test `/true/i.test(s)`: `true` iff `s` contains `"true"`
case-insensitively. -/
def regexTrueTest (s : String) : Bool :=
  containsSubstr (lowerStr s) "true"

/-- The `String(b)` / `JSON.stringify(b)` for a JavaScript boolean, which is how
`core.saveState` serializes a non-string value. -/
def jsBoolString (b : Bool) : String :=
  if b then "true" else "false"

/-! ## StateStore: `core.saveState` and the `STATE_` environment

`core.saveState(key, value)` appends a key/value record to the runner's state
file; before the finalization phase the runner exports, for each key, the value
of its last record as the environment variable `STATE_<key>`.  The state file
is a `List (String × String)` and a read returns the last write for the key. -/

/-- The durable state file written by `core.saveState` calls, in write order. -/
abbrev StateFile := List (String × String)

/-- The empty state file (no `saveState` call has happened yet). -/
def stateEmpty : StateFile := []

/-- The `core.saveState(key, value)`: append a record to the state file. -/
def saveState (st : StateFile) (key value : String) : StateFile :=
  st ++ [(key, value)]

/-- The value the runner exports as `STATE_<key>` in the finalization phase:
the last value written for `key`, if any (last-write-wins). -/
def lookupState (st : StateFile) (key : String) : Option String :=
  (st.reverse.find? (fun p => p.1 == key)).map (fun p => p.2)

/-- The `STATE_` environment seen by the finalization process. -/
def envOf (st : StateFile) : String → Option String :=
  fun k => lookupState st k

/-! ### The state-helper setters (src/state-helper, lines 16-62) -/

def setDebug (st : StateFile) (debug : String) : StateFile :=
  saveState st "isDebug" debug

def setStandalone (st : StateFile) (standalone : Bool) : StateFile :=
  saveState st "standalone" (jsBoolString standalone)

def setBuilderName (st : StateFile) (builderName : String) : StateFile :=
  saveState st "builderName" builderName

def setBuilderDriver (st : StateFile) (builderDriver : String) : StateFile :=
  saveState st "builderDriver" builderDriver

def setContainerName (st : StateFile) (containerName : String) : StateFile :=
  saveState st "containerName" containerName

def setCertsDir (st : StateFile) (certsDir : String) : StateFile :=
  saveState st "certsDir" certsDir

def setCleanup (st : StateFile) (cleanup : Bool) : StateFile :=
  saveState st "cleanup" (jsBoolString cleanup)

def setStickyDisksEnabled (st : StateFile) (isStickyDisksEnabled : String) : StateFile :=
  saveState st "isStickyDisksEnabled" isStickyDisksEnabled

def setBlacksmithBuildTaskId (st : StateFile) (blacksmithBuildTaskId : String) : StateFile :=
  saveState st "blacksmithBuildTaskId" blacksmithBuildTaskId

def setBlacksmithClientKey (st : StateFile) (blacksmithClientKey : String) : StateFile :=
  saveState st "blacksmithClientKey" blacksmithClientKey

def setBlacksmithClientCaCertificate (st : StateFile) (v : String) : StateFile :=
  saveState st "blacksmithClientCaCertificate" v

def setBlacksmithRootCaCertificate (st : StateFile) (v : String) : StateFile :=
  saveState st "blacksmithRootCaCertificate" v

/-! ### The state-helper module-level exports (src/state-helper, lines 3-14)

Each export reads its `STATE_` environment variable with the exact coercion
of the source.  They are functions of the finalization-phase environment. -/

def IsDebugExport (env : String → Option String) : Bool :=
  jsTruthy (env "isDebug")

def standaloneExport (env : String → Option String) : Bool :=
  regexTrueTest (envOrEmpty (env "standalone"))

def builderNameExport (env : String → Option String) : String :=
  envOrEmpty (env "builderName")

def builderDriverExport (env : String → Option String) : String :=
  envOrEmpty (env "builderDriver")

def containerNameExport (env : String → Option String) : String :=
  envOrEmpty (env "containerName")

def certsDirExport (env : String → Option String) : String :=
  envOrEmpty (env "certsDir")

def cleanupExport (env : String → Option String) : Bool :=
  regexTrueTest (envOrEmpty (env "cleanup"))

def isStickyDisksEnabledExport (env : String → Option String) : Bool :=
  jsTruthy (env "isStickyDisksEnabled")

def blacksmithBuildTaskIdExport (env : String → Option String) : String :=
  envOrEmpty (env "blacksmithBuildTaskId")

def blacksmithClientKeyExport (env : String → Option String) : String :=
  envOrEmpty (env "blacksmithClientKey")

def blacksmithClientCaCertificateExport (env : String → Option String) : String :=
  envOrEmpty (env "blacksmithClientCaCertificate")

def blacksmithRootCaCertificateExport (env : String → Option String) : String :=
  envOrEmpty (env "blacksmithRootCaCertificate")

end SetupBuildx


namespace SetupBuildx

/-! ## Observable events

One event type covers every external action the embedded fragments perform;
each trace lists the actions in program order. -/

inductive Ev where
  /-- The `echo "load" | socat ... VSOCK-CONNECT:2:<port>` issued (fire-and-forget). -/
  | sendLoad (port : String)
  /-- The `core.warning` emitted by one of the sticky-disk catch blocks in `main`. -/
  | warnSticky
  /-- The `retryCommand` invokes the command, attempt index `i`. -/
  | attempt (i : Nat)
  /-- The `retryCommand` suspends for `ms` milliseconds. -/
  | sleepR (ms : Nat)
  /-- The `lsblk /dev/vdb` probe, with its outcome. -/
  | checkBlock (present : Bool)
  /-- The `sudo mkdir -p /var/lib/buildkit`. -/
  | mkdirMnt (ok : Bool)
  /-- The `sudo mount /dev/vdb /var/lib/buildkit`. -/
  | mountDev (ok : Bool)
  /-- The `findPort()` — the first statement of `main` after the sticky-disk section. -/
  | findPort
  /-- The `setTimeout(() => controller.abort(), ms)` armed. -/
  | armTimeout (ms : Nat)
  /-- The `clearTimeout(timeoutId)` in the `finally` block. -/
  | clearTimeoutEv
  /-- The `client.post('')` — the task-creation request. -/
  | createTask
  /-- The `i`-th `client.get('/<taskId>')` status query, taking `dur` ms. -/
  | pollStatus (i dur : Nat)
  /-- The 200 ms suspension between status queries. -/
  | sleepP (ms : Nat)
  /-- The `client.post('/<id>/abandon')` issued with the given id string. -/
  | abandonTask (id : String)
  /-- The `docker logs <containerName>` capture. -/
  | dockerLogs
  /-- The `client.post('/<id>/complete')`, with its outcome. -/
  | reportCompleted (id : String) (ok : Bool)
  /-- The `buildx stop <builderName>`. -/
  | stopBuilder
  /-- The `sudo pkill -TERM buildkitd` (shutdownBuildkitd), with its outcome. -/
  | shutdownB (ok : Bool)
  /-- The `sudo umount /var/lib/buildkit`, with its outcome. -/
  | umountMnt (ok : Bool)
  /-- The `sudo mkdir -p /stickydisk`, with its outcome. -/
  | mkdirSticky (ok : Bool)
  /-- The `sudo touch /stickydisk/commit.txt` — the commit-marker write. -/
  | touchCommit (ok : Bool)
  /-- The `buildx rm <builderName>` — the builder remove request. -/
  | rmBuilder
  /-- The `fs.rmSync(certsDir, {recursive: true})`. -/
  | rmCerts
  deriving DecidableEq, Repr

/-! ## retryCommand (`main.ts` lines 79-97)

The command's behaviour is an oracle giving, per attempt index, either the
rejection of its promise (`.error ()`) or the string it resolves with. -/

/-- Per-attempt outcome of the retried command. -/
abbrev CmdOracle := Nat → Except Unit String

/-- The success test on line 87: `result && !result.includes('Resource not found')`. -/
def goodResult (r : String) : Bool :=
  r != "" && !(containsSubstr r "Resource not found")

inductive RetryErr where
  /-- The `'Maximum number of retries exceeded'`. -/
  | retryExhausted
  deriving DecidableEq, Repr

/-- The retry loop body, entered with counter value `retryAttempts`. -/
def retryAux (cmds : CmdOracle) (sleepMs : Nat) (retryAttempts : Nat) :
    List Ev × Except RetryErr String :=
  if _h : retryAttempts > 10 then
    ([], .error .retryExhausted)
  else
    match cmds retryAttempts with
    | .ok r =>
      if goodResult r then ([.attempt retryAttempts], .ok r)
      else
        let rest := retryAux cmds sleepMs (retryAttempts + 1)
        (.attempt retryAttempts :: .sleepR sleepMs :: rest.1, rest.2)
    | .error _ =>
      let rest := retryAux cmds sleepMs (retryAttempts + 1)
      (.attempt retryAttempts :: .sleepR sleepMs :: rest.1, rest.2)
termination_by 11 - retryAttempts
decreasing_by all_goals omega

/-- The `retryCommand(sleepTime, command)`: the counter starts at 0 and the
suspension between attempts is `sleepTime * 1000` ms. -/
def retryCommand (sleepTime : Nat) (cmds : CmdOracle) :
    List Ev × Except RetryErr String :=
  retryAux cmds (sleepTime * 1000) 0

end SetupBuildx

namespace SetupBuildx

/-! ## TaskProvisioner: `getBuildkitdAddr` (remote-builder `main.ts`, lines 161-197)

The provisioning backend is an oracle: the task-creation response, and for
each status query its response and its wall-clock duration.  Time is a `Nat`
millisecond counter that starts at 0 when the poll loop's `startTime` is
taken; each loop iteration checks `Date.now() - startTime < 60000`, performs
one `GET` taking `pollDur i` ms, and on a miss sleeps 200 ms. -/

/-- The body of the task-creation response:
`{id, client_key, client_ca_certificate, root_ca_certificate}`. -/
structure TaskResp where
  id : String
  clientKey : String
  clientCaCertificate : String
  rootCaCertificate : String

structure ProvOracle where
  /-- The `POST /` response. -/
  createResp : TaskResp
  /-- The `ec2_instance.instance_ip` of the `i`-th status query, when present. -/
  pollInstance : Nat → Option String
  /-- Wall-clock duration in ms of the `i`-th status query. -/
  pollDur : Nat → Nat
  /-- Whether `POST /<id>/abandon` resolves (rather than rejects). -/
  abandonOk : Bool

inductive ProvErr where
  /-- The `'Failed to get EC2 instance within 60 seconds'`. -/
  | provisionTimeout
  /-- The rejection of the abandon request itself, propagating out of the
  function (the abandon call is not wrapped in any try/catch). -/
  | abandonFailed
  deriving DecidableEq, Repr

/-- The `while (Date.now() - startTime < 60000)` loop (lines 179-193), entered
with the `i`-th query pending and `elapsed` ms since `startTime`.  On expiry
the abandon request is issued with the id read from the module-level export
`stateHelper.blacksmithBuildTaskId`, i.e. from the `STATE_` environment of the
current process (`env`). -/
def pollLoop (o : ProvOracle) (env : String → Option String) (i elapsed : Nat) :
    List Ev × Except ProvErr String :=
  if _h : elapsed < 60000 then
    let dur := o.pollDur i
    match o.pollInstance i with
    | some ip => ([.pollStatus i dur], .ok ("tcp://" ++ ip ++ ":4242"))
    | none =>
      let rest := pollLoop o env (i + 1) (elapsed + dur + 200)
      (.pollStatus i dur :: .sleepP 200 :: rest.1, rest.2)
  else
    let ev := Ev.abandonTask (envOrEmpty (env "blacksmithBuildTaskId"))
    if o.abandonOk then ([ev], .error .provisionTimeout)
    else ([ev], .error .abandonFailed)
termination_by 60000 - elapsed
decreasing_by omega

/-- The `getBuildkitdAddr()`: arms the single 30000 ms abort timer, creates the
task, persists the four credential records, runs the poll loop, and clears the
timer in the `finally` block on every exit path.  The timer's
`AbortController` signal is never attached to any request, so arming and
clearing are its only observable effects. -/
def getBuildkitdAddr (o : ProvOracle) (env : String → Option String) (st : StateFile) :
    List Ev × Except ProvErr String × StateFile :=
  let st1 := setBlacksmithBuildTaskId st o.createResp.id
  let st2 := setBlacksmithClientKey st1 o.createResp.clientKey
  let st3 := setBlacksmithClientCaCertificate st2 o.createResp.clientCaCertificate
  let st4 := setBlacksmithRootCaCertificate st3 o.createResp.rootCaCertificate
  let loop := pollLoop o env 0 0
  (.armTimeout 30000 :: .createTask :: (loop.1 ++ [.clearTimeoutEv]), loop.2, st4)

/-! ## The sticky-disk section of `main` (sticky-disk `main.ts`, lines 230-259) -/

/-- The `getEnvVar` (lines 29-35): `if (!value) throw`, so an unset *or empty*
variable throws the `ConfigError`. -/
def getEnvVar (env : String → Option String) (name : String) : Except Unit String :=
  match env name with
  | none => .error ()
  | some v => if v = "" then .error () else .ok v

structure MainOracle where
  /-- The `process.env` of the initialization phase. -/
  procEnv : String → Option String
  /-- Outcomes of `getMetadata('sticky_disk_loaded')`, per retry attempt. -/
  metadataCmds : CmdOracle
  /-- Whether `lsblk /dev/vdb` succeeds (`checkBlockDevice`). -/
  blockDevicePresent : Bool
  /-- Whether `sudo mkdir -p /var/lib/buildkit` succeeds. -/
  mkdirOk : Bool
  /-- Whether `sudo mount /dev/vdb /var/lib/buildkit` succeeds. -/
  mountOk : Bool

/-- The `sendLoadStickyDisksRequest` (lines 37-56): reads `VSOCK_PORT` via
`getEnvVar` (rethrowing its error) and fires the `socat` command without
awaiting it — errors of the command itself are only logged in the callback. -/
def sendLoadStickyDisksRequest (env : String → Option String) :
    List Ev × Except Unit Unit :=
  match getEnvVar env "VSOCK_PORT" with
  | .error _ => ([], .error ())
  | .ok port => ([.sendLoad port], .ok ())

/-- Lines 230-259 of `main`: the two sticky-disk try/catch blocks followed by
the first statement after them (`findPort`, line 256).  Returns the trace, the
local `isStickyDisksEnabled` flag, and the state file after the section.  Both
catch blocks log a warning and carry on, so the section never throws. -/
def mainStickyPhase (o : MainOracle) (st : StateFile) : List Ev × Bool × StateFile :=
  let part1 : List Ev × Bool :=
    match sendLoadStickyDisksRequest o.procEnv with
    | (tr, .error _) => (tr ++ [.warnSticky], false)
    | (tr, .ok _) =>
      let retried := retryCommand 1 o.metadataCmds
      match retried.2 with
      | .error _ => (tr ++ retried.1 ++ [.warnSticky], false)
      | .ok v => (tr ++ retried.1, v == "true")
  let enabled := part1.2
  let present := o.blockDevicePresent
  let part2 : List Ev × StateFile :=
    if enabled && present then
      let st' := setStickyDisksEnabled st "true"
      if o.mkdirOk then
        if o.mountOk then ([.mkdirMnt true, .mountDev true], st')
        else ([.mkdirMnt true, .mountDev false, .warnSticky], st')
      else ([.mkdirMnt false, .warnSticky], st')
    else ([], st)
  (part1.1 ++ (.checkBlock present :: part2.1) ++ [.findPort], enabled, part2.2)

/-- The inputs that determine the remaining state records written by `main`
(sticky-disk `main.ts`, lines 260-390). -/
structure RestInputs where
  /-- The `inputs.cleanup`. -/
  cleanup : Bool
  /-- The `toolkit.buildx.isStandalone()`. -/
  standalone : Bool
  /-- The `inputs.name`. -/
  name : String
  /-- The `Buildx.certsDir`. -/
  certsDir : String
  /-- The `builderInspect.driver == 'docker-container'`. -/
  dockerContainerDriver : Bool
  /-- The container name recorded in that branch. -/
  containerName : String
  /-- The `core.isDebug() || buildkitd-flags includes --debug`. -/
  debugFlag : Bool

/-- The `stateHelper` records written by the remainder of `main`, in source
order.  `inputs.driver` is overridden to `'remote'` (line 265) before
`setBuilderDriver(inputs.driver)` runs, so the recorded driver is always
`"remote"`. -/
def mainRestState (r : RestInputs) (st : StateFile) : StateFile :=
  let st1 := setCleanup st r.cleanup
  let st2 := setStandalone st1 r.standalone
  let st3 := setBuilderName st2 r.name
  let st4 := setBuilderDriver st3 "remote"
  let st5 := setCertsDir st4 r.certsDir
  let st6 :=
    if !r.standalone && r.dockerContainerDriver then
      setContainerName st5 r.containerName
    else st5
  if r.debugFlag then setDebug st6 "true" else st6

/-- The complete state file recorded by an initialization phase of the
sticky-disk variant that runs to completion. -/
def mainRecordedState (o : MainOracle) (r : RestInputs) : StateFile :=
  mainRestState r (mainStickyPhase o stateEmpty).2.2

end SetupBuildx

namespace SetupBuildx

/-! ## TeardownCoordinator: the `post` functions

`postMain` embeds the `post` entry of the sticky-disk `main.ts` (lines
393-455); `postRemote` embeds the `post` entry of the remote-builder variant
(lines 349-401).  Both read the `STATE_` environment through the state-helper
exports; the outcomes of external commands come from an oracle. -/

structure PostOracle where
  /-- The `builder.exists(stateHelper.builderName)`. -/
  builderExists : Bool
  /-- Whether `sudo pkill -TERM buildkitd` (shutdownBuildkitd) succeeds. -/
  shutdownOk : Bool
  /-- Whether `sudo umount /var/lib/buildkit` succeeds. -/
  umountOk : Bool
  /-- Whether `sudo mkdir -p /stickydisk` succeeds. -/
  mkdirStickyOk : Bool
  /-- Whether `sudo touch /stickydisk/commit.txt` succeeds. -/
  touchOk : Bool
  /-- The `fs.existsSync(stateHelper.certsDir)`. -/
  certsDirOnDisk : Bool

/-- The `try { if (stateHelper.isStickyDisksEnabled) { ... } } catch` block
(lines 421-434): shutdown, unmount, marker-directory creation, and
commit-marker write in order; the first failing step throws into the catch,
which logs and falls through to the `rm` command. -/
def stickyTeardown (sticky : Bool) (o : PostOracle) : List Ev :=
  if sticky then
    if !o.shutdownOk then [.shutdownB false]
    else if !o.umountOk then [.shutdownB true, .umountMnt false]
    else if !o.mkdirStickyOk then [.shutdownB true, .umountMnt true, .mkdirSticky false]
    else if !o.touchOk then
      [.shutdownB true, .umountMnt true, .mkdirSticky true, .touchCommit false]
    else [.shutdownB true, .umountMnt true, .mkdirSticky true, .touchCommit true]
  else []

/-- The `post` entry of the sticky-disk `main.ts` (lines 393-455). -/
def postMain (env : String → Option String) (o : PostOracle) : List Ev :=
  (if IsDebugExport env && (containerNameExport env).length > 0 then
    [.dockerLogs] else []) ++
  (if !cleanupExport env then [] else
    (if builderDriverExport env != "docker" && (builderNameExport env).length > 0 then
      (if o.builderExists then
        .stopBuilder :: (stickyTeardown (isStickyDisksEnabledExport env) o ++ [.rmBuilder])
      else [])
    else []) ++
    (if (certsDirExport env).length > 0 && o.certsDirOnDisk then [.rmCerts] else []))

structure PostOracleB where
  /-- The `builder.exists(stateHelper.builderName)`. -/
  builderExists : Bool
  /-- Whether `POST /<id>/complete` resolves; `reportBuildCompleted` logs a
  warning and rethrows on rejection, and its caller does not catch. -/
  reportOk : Bool
  /-- The `fs.existsSync(stateHelper.certsDir)`. -/
  certsDirOnDisk : Bool

/-- The part of the remote-builder `post` after the completion report:
the cleanup short-circuit, the builder removal, and the certificate cleanup
(lines 368-400). -/
def postRemoteRest (env : String → Option String) (o : PostOracleB) : List Ev :=
  if !cleanupExport env then [] else
    (if builderDriverExport env != "docker" && (builderNameExport env).length > 0 then
      (if o.builderExists then [.stopBuilder, .rmBuilder] else [])
    else []) ++
    (if (certsDirExport env).length > 0 && o.certsDirOnDisk then [.rmCerts] else [])

/-- The `post` entry of the remote-builder variant (lines 349-401).  A failing
completion report aborts the whole `post` (`.error ()`), because
`reportBuildCompleted` rethrows and nothing catches it. -/
def postRemote (env : String → Option String) (o : PostOracleB) :
    List Ev × Except Unit Unit :=
  let tr1 : List Ev :=
    if IsDebugExport env && (containerNameExport env).length > 0 then
      [.dockerLogs] else []
  if builderDriverExport env == "remote" && (builderNameExport env).length > 0 then
    if o.reportOk then
      (tr1 ++ [.reportCompleted (blacksmithBuildTaskIdExport env) true] ++
        postRemoteRest env o, .ok ())
    else
      (tr1 ++ [.reportCompleted (blacksmithBuildTaskIdExport env) false], .error ())
  else (tr1 ++ postRemoteRest env o, .ok ())

end SetupBuildx

namespace SetupBuildx

/-! ## Trace-counting helpers -/

/-- Number of command invocations (`.attempt` events) in a trace. -/
def attemptCount (tr : List Ev) : Nat :=
  tr.countP fun e => match e with | .attempt _ => true | _ => false

/-- Number of abandon requests (`.abandonTask` events) in a trace. -/
def abandonCount (tr : List Ev) : Nat :=
  tr.countP fun e => match e with | .abandonTask _ => true | _ => false

/-- The trace of `n` consecutive rejected-or-retried attempts starting at
index `i`, each followed by the `s` ms suspension. -/
def retryTrace (s : Nat) : Nat → Nat → List Ev
  | _, 0 => []
  | i, n + 1 => .attempt i :: .sleepR s :: retryTrace s (i + 1) n


/-! ## Basic lemmas about the state store -/

theorem lookupState_save_same (st : StateFile) (k v : String) :
    lookupState (saveState st k v) k = some v := by
  simp [lookupState, saveState, List.find?]

theorem envOf_save_same (st : StateFile) (k v : String) :
    envOf (saveState st k v) k = some v := by
  simp [envOf, lookupState_save_same]

theorem lookupState_save_other (st : StateFile) (k k' v : String) (h : k' ≠ k) :
    lookupState (saveState st k v) k' = lookupState st k' := by
  simp only [lookupState, saveState, List.reverse_append, List.reverse_cons,
    List.reverse_nil, List.nil_append, List.cons_append, List.find?]
  have : (k == k') = false := by
    exact beq_false_of_ne (fun hk => h hk.symm)
  simp [this]


theorem retryTrace_attemptCount (s : Nat) :
    ∀ n i, attemptCount (retryTrace s i n) = n := by
  intro n
  induction n with
  | zero => intro i; simp [retryTrace, attemptCount]
  | succ n ih =>
    intro i
    simp only [retryTrace, attemptCount, List.countP_cons] at *
    simp [ih (i + 1)]

theorem retryTrace_mem_attempt (s : Nat) :
    ∀ n i j, Ev.attempt j ∈ retryTrace s i n ↔ i ≤ j ∧ j < i + n := by
  intro n
  induction n with
  | zero => intro i j; simp [retryTrace]
  | succ n ih =>
    intro i j
    simp [retryTrace, ih (i + 1) j]
    constructor
    · rintro (h | h)
      · omega
      · omega
    · intro h
      by_cases hj : j = i
      · exact Or.inl hj
      · exact Or.inr (by omega)

theorem retryTrace_mem_sleep (s : Nat) :
    ∀ n i ms, Ev.sleepR ms ∈ retryTrace s i n → ms = s := by
  intro n
  induction n with
  | zero => intro i ms h; simp [retryTrace] at h
  | succ n ih =>
    intro i ms h
    simp [retryTrace] at h
    rcases h with h | h
    · exact h
    · exact ih (i + 1) ms h

/-- With every attempt rejected or empty, the loop starting at counter `i`
(`11 - i = n`) performs the remaining `n` attempts and exhausts. -/
theorem retryAux_allBad (cmds : CmdOracle) (s : Nat)
    (hbad : ∀ j, cmds j = .error () ∨ cmds j = .ok "") :
    ∀ n i, 11 - i = n →
      retryAux cmds s i = (retryTrace s i n, .error .retryExhausted) := by
  intro n
  induction n with
  | zero =>
    intro i hi
    have hgt : i > 10 := by omega
    rw [retryAux]
    simp [hgt, retryTrace]
  | succ n ih =>
    intro i hi
    have hle : ¬ i > 10 := by omega
    rw [retryAux]
    rcases hbad i with h | h <;>
      simp [hle, h, goodResult, ih (i + 1) (by omega), retryTrace]

end SetupBuildx

namespace SetupBuildx

/-- C5: for any positive sleep duration and a command whose every attempt
rejects or resolves empty, `retryCommand` performs exactly 11 attempts, at
indices 0 through 10, every suspension in the trace is exactly
`sleepTime * 1000` ms (the fixed `sleepSeconds`), the trace is precisely the
alternation attempt/sleep, and the call fails with the retry-exhausted
error. -/
theorem c5_retry_exhausts_after_eleven_attempts
    (sleepTime : Nat) (cmds : CmdOracle)
    (_hpos : 0 < sleepTime)
    (hbad : ∀ j, cmds j = .error () ∨ cmds j = .ok "") :
    (retryCommand sleepTime cmds).2 = .error .retryExhausted ∧
    attemptCount (retryCommand sleepTime cmds).1 = 11 ∧
    (∀ j, Ev.attempt j ∈ (retryCommand sleepTime cmds).1 ↔ j < 11) ∧
    (∀ ms, Ev.sleepR ms ∈ (retryCommand sleepTime cmds).1 → ms = sleepTime * 1000) ∧
    (retryCommand sleepTime cmds).1 = retryTrace (sleepTime * 1000) 0 11 := by
  have h := retryAux_allBad cmds (sleepTime * 1000) hbad 11 0 (by omega)
  unfold retryCommand
  rw [h]
  refine ⟨rfl, retryTrace_attemptCount _ 11 0, ?_, ?_, rfl⟩
  · intro j
    rw [retryTrace_mem_attempt]
    omega
  · intro ms
    exact retryTrace_mem_sleep _ 11 0 ms

/-- Witness for C5 at `sleepTime = 1` and the always-rejecting command. -/
theorem c5_retry_exhausts_after_eleven_attempts_witness :
    0 < 1 ∧
    (retryCommand 1 (fun _ => .error ())).2 = .error .retryExhausted ∧
    attemptCount (retryCommand 1 (fun _ => .error ())).1 = 11 := by
  have h := c5_retry_exhausts_after_eleven_attempts 1 (fun _ => .error ())
    (by decide) (fun _ => Or.inl rfl)
  exact ⟨by decide, h.1, h.2.1⟩

end SetupBuildx

namespace SetupBuildx

/-- Any value the retry loop returns passed its success test. -/
theorem retryAux_ok_good (cmds : CmdOracle) (s : Nat) :
    ∀ n i tr v, 11 - i = n → retryAux cmds s i = (tr, .ok v) →
      goodResult v = true := by
  intro n
  induction n with
  | zero =>
    intro i tr v hi h
    have hgt : i > 10 := by omega
    rw [retryAux] at h
    simp [hgt] at h
  | succ n ih =>
    intro i tr v hi h
    have hle : ¬ i > 10 := by omega
    rw [retryAux] at h
    simp only [hle, dite_false, dif_neg, not_false_iff] at h
    rcases hcmd : cmds i with e | r
    · rw [hcmd] at h
      simp at h
      exact ih (i + 1) (retryAux cmds s (i + 1)).1 v (by omega) (by rw [← h.2])
    · rw [hcmd] at h
      by_cases hg : goodResult r
      · simp [hg] at h
        rcases h with ⟨h1, h2⟩
        rw [← h2]
        exact hg
      · simp [hg] at h
        exact ih (i + 1) (retryAux cmds s (i + 1)).1 v (by omega) (by rw [← h.2])

/-- C7 counterexample: the sentinel the code checks is `"Resource not found"`,
not `"not found"`.  The result `"key not found"` contains the substring
`"not found"`, yet `retryCommand` accepts it as success on the very first
attempt instead of retrying. -/
theorem c7_counterexample :
    containsSubstr "key not found" "not found" = true ∧
    retryCommand 1 (fun _ => .ok "key not found") =
      ([.attempt 0], .ok "key not found") := by
  constructor
  · decide
  · simp [retryCommand]
    rw [retryAux]
    simp [goodResult]
    decide

/-- C7 (amended): the sentinel substring is `"Resource not found"`.  The
combinator treats an empty result, or any result containing
`"Resource not found"`, as retryable; a returned value is always non-empty and
free of that sentinel, and a first-attempt result that is non-empty and
sentinel-free is returned immediately. -/
theorem c7_success_predicate (sleepTime : Nat) (cmds : CmdOracle) :
    (∀ tr v, retryCommand sleepTime cmds = (tr, .ok v) →
      v ≠ "" ∧ containsSubstr v "Resource not found" = false) ∧
    (∀ v, cmds 0 = .ok v → v ≠ "" →
      containsSubstr v "Resource not found" = false →
      retryCommand sleepTime cmds = ([.attempt 0], .ok v)) := by
  constructor
  · intro tr v h
    have hg := retryAux_ok_good cmds (sleepTime * 1000) 11 0 tr v (by omega) h
    unfold goodResult at hg
    simp only [Bool.and_eq_true, bne_iff_ne, ne_eq, Bool.not_eq_true'] at hg
    exact hg
  · intro v hc hne hfree
    unfold retryCommand
    rw [retryAux]
    have hg : goodResult v = true := by
      unfold goodResult
      simp [hne, hfree]
    simp [hc, hg]

/-- Witness for C7's amended statement, at the command that immediately
resolves with `"ready"`. -/
theorem c7_success_predicate_witness :
    retryCommand 1 (fun _ => .ok "ready") = ([.attempt 0], .ok "ready") ∧
    "ready" ≠ "" ∧ containsSubstr "ready" "Resource not found" = false := by
  have h := c7_success_predicate 1 (fun _ => .ok "ready")
  have h2 := h.2 "ready" rfl (by decide) (by decide)
  exact ⟨h2, h.1 _ "ready" h2⟩

end SetupBuildx

namespace SetupBuildx

/-- The `lookupState` after a save: the saved value for the saved key,
the previous answer for any other key. -/
theorem lookupState_save (st : StateFile) (k k' v : String) :
    lookupState (saveState st k v) k' =
      if k' = k then some v else lookupState st k' := by
  by_cases h : k' = k
  · subst h; simp [lookupState_save_same]
  · simp [h, lookupState_save_other st k k' v h]

/-- C1 counterexample: the claim fails on the `isDebug` key.  Writing the
boolean `false` (serialized to the string `"false"` by `core.saveState`) and
reading it back through the module-level export `IsDebug`, which coerces with
`!!process.env['STATE_isDebug']`, yields `true`, not `false`: any non-empty
saved string — including `"false"` — reads back as `true`. -/
theorem c1_counterexample :
    ¬ (∀ b : Bool,
        IsDebugExport (envOf (setDebug stateEmpty (jsBoolString b))) = b) := by
  intro h
  exact absurd (h false) (by decide)

/-- C1 (amended): the eight string-valued keys round-trip exactly, and so do
the boolean keys `cleanup` and `standalone` (written as `"true"`/`"false"`
and read back with `/true/i.test`).  The keys `isDebug` and
`isStickyDisksEnabled`, however, are read back with the `!!` truthiness
coercion: the finalization-phase export returns whether the written string is
non-empty, so writing `"false"` reads back as `true`. -/
theorem c1_state_roundtrip (st : StateFile) (v : String) (b : Bool) :
    builderNameExport (envOf (setBuilderName st v)) = v ∧
    builderDriverExport (envOf (setBuilderDriver st v)) = v ∧
    containerNameExport (envOf (setContainerName st v)) = v ∧
    certsDirExport (envOf (setCertsDir st v)) = v ∧
    blacksmithBuildTaskIdExport (envOf (setBlacksmithBuildTaskId st v)) = v ∧
    blacksmithClientKeyExport (envOf (setBlacksmithClientKey st v)) = v ∧
    blacksmithClientCaCertificateExport
      (envOf (setBlacksmithClientCaCertificate st v)) = v ∧
    blacksmithRootCaCertificateExport
      (envOf (setBlacksmithRootCaCertificate st v)) = v ∧
    cleanupExport (envOf (setCleanup st b)) = b ∧
    standaloneExport (envOf (setStandalone st b)) = b ∧
    IsDebugExport (envOf (setDebug st v)) = (v != "") ∧
    isStickyDisksEnabledExport (envOf (setStickyDisksEnabled st v)) = (v != "") := by
  refine ⟨?_, ?_, ?_, ?_, ?_, ?_, ?_, ?_, ?_, ?_, ?_, ?_⟩
  · simp [builderNameExport, setBuilderName, envOf_save_same, envOrEmpty]
  · simp [builderDriverExport, setBuilderDriver, envOf_save_same, envOrEmpty]
  · simp [containerNameExport, setContainerName, envOf_save_same, envOrEmpty]
  · simp [certsDirExport, setCertsDir, envOf_save_same, envOrEmpty]
  · simp [blacksmithBuildTaskIdExport, setBlacksmithBuildTaskId,
      envOf_save_same, envOrEmpty]
  · simp [blacksmithClientKeyExport, setBlacksmithClientKey,
      envOf_save_same, envOrEmpty]
  · simp [blacksmithClientCaCertificateExport, setBlacksmithClientCaCertificate,
      envOf_save_same, envOrEmpty]
  · simp [blacksmithRootCaCertificateExport, setBlacksmithRootCaCertificate,
      envOf_save_same, envOrEmpty]
  · have := envOf_save_same st "cleanup" (jsBoolString b)
    simp only [cleanupExport, setCleanup, this]
    cases b <;> decide
  · have := envOf_save_same st "standalone" (jsBoolString b)
    simp only [standaloneExport, setStandalone, this]
    cases b <;> decide
  · have := envOf_save_same st "isDebug" v
    simp only [IsDebugExport, setDebug, this, jsTruthy]
  · have := envOf_save_same st "isStickyDisksEnabled" v
    simp only [isStickyDisksEnabledExport, setStickyDisksEnabled, this, jsTruthy]

end SetupBuildx

namespace SetupBuildx

/-- With a backend that never reports an instance, the poll loop (entered with
at most `n` ms of deadline budget left) issues exactly one abandon request and
fails: with the provision-timeout error when the abandon call resolves, and
with the abandon call's own error when it rejects. -/
theorem pollLoop_noInstance (o : ProvOracle) (env : String → Option String)
    (hnone : ∀ i, o.pollInstance i = none) :
    ∀ n i elapsed, 60000 - elapsed ≤ n →
      abandonCount (pollLoop o env i elapsed).1 = 1 ∧
      (pollLoop o env i elapsed).2 =
        .error (if o.abandonOk then .provisionTimeout else .abandonFailed) := by
  intro n
  induction n with
  | zero =>
    intro i e he
    have h : ¬ e < 60000 := by omega
    rw [pollLoop]
    cases habn : o.abandonOk <;>
      simp [h, habn, abandonCount, List.countP_cons]
  | succ n ih =>
    intro i e he
    by_cases hlt : e < 60000
    · rw [pollLoop]
      have hrec := ih (i + 1) (e + o.pollDur i + 200) (by omega)
      simp only [hlt, dite_true, hnone i]
      exact ⟨by simp [abandonCount, List.countP_cons] at hrec ⊢; exact hrec.1,
        hrec.2⟩
    · rw [pollLoop]
      cases habn : o.abandonOk <;>
        simp [hlt, habn, abandonCount, List.countP_cons]

/-- Every event the poll loop emits is a status query (carrying exactly the
oracle's duration for its index), the 200 ms sleep, or an abandon request. -/
theorem pollLoop_events (o : ProvOracle) (env : String → Option String) :
    ∀ n i elapsed, 60000 - elapsed ≤ n →
      ∀ e ∈ (pollLoop o env i elapsed).1,
        (∃ j, e = .pollStatus j (o.pollDur j)) ∨ e = .sleepP 200 ∨
        (∃ id, e = .abandonTask id) := by
  intro n
  induction n with
  | zero =>
    intro i el he e hmem
    have h : ¬ el < 60000 := by omega
    rw [pollLoop] at hmem
    simp only [h, dite_false] at hmem
    cases habn : o.abandonOk <;> rw [habn] at hmem <;> simp at hmem <;>
      exact Or.inr (Or.inr ⟨_, hmem⟩)
  | succ n ih =>
    intro i el he e hmem
    by_cases hlt : el < 60000
    · rw [pollLoop] at hmem
      simp only [hlt, dite_true] at hmem
      cases hinst : o.pollInstance i <;> rw [hinst] at hmem <;> simp at hmem
      · rcases hmem with h | h | h
        · exact Or.inl ⟨i, by simp [h]⟩
        · exact Or.inr (Or.inl h)
        · exact ih (i + 1) (el + o.pollDur i + 200) (by omega) e h
      · exact Or.inl ⟨i, by simp [hmem]⟩
    · rw [pollLoop] at hmem
      simp only [hlt, dite_false] at hmem
      cases habn : o.abandonOk <;> rw [habn] at hmem <;> simp at hmem <;>
        exact Or.inr (Or.inr ⟨_, hmem⟩)

end SetupBuildx

namespace SetupBuildx

/-- C3 (amended): when the backend never assigns an instance, so that the
60000 ms deadline elapses, `getBuildkitdAddr` issues exactly one abandon
request and then fails — with the provision-timeout error
(`'Failed to get EC2 instance within 60 seconds'`) when the abandon call
succeeds; when the abandon call itself rejects, the function instead fails
with the abandon call's error, because that call is not wrapped in any
try/catch (so the abandon failure is not swallowed). -/
theorem c3_provision_timeout_abandons_once (o : ProvOracle)
    (env : String → Option String) (st : StateFile)
    (hnone : ∀ i, o.pollInstance i = none) :
    abandonCount (getBuildkitdAddr o env st).1 = 1 ∧
    (getBuildkitdAddr o env st).2.1 =
      .error (if o.abandonOk then .provisionTimeout else .abandonFailed) := by
  have h := pollLoop_noInstance o env hnone 60000 0 0 (by omega)
  refine ⟨?_, h.2⟩
  show abandonCount
    (.armTimeout 30000 :: .createTask :: ((pollLoop o env 0 0).1 ++ [.clearTimeoutEv])) = 1
  simp [abandonCount, List.countP_cons, List.countP_append] at h ⊢
  exact h.1

/-- Witness for C3's amended statement: a backend that never assigns and
whose abandon endpoint works; each status query takes 59800 ms, so the
deadline expires after the second query is due. -/
theorem c3_provision_timeout_abandons_once_witness :
    abandonCount (getBuildkitdAddr
      ⟨⟨"task-1", "key", "cca", "rca"⟩, fun _ => none, fun _ => 59800, true⟩
      (fun _ => none) stateEmpty).1 = 1 ∧
    (getBuildkitdAddr
      ⟨⟨"task-1", "key", "cca", "rca"⟩, fun _ => none, fun _ => 59800, true⟩
      (fun _ => none) stateEmpty).2.1 = .error .provisionTimeout := by
  have h := c3_provision_timeout_abandons_once
    ⟨⟨"task-1", "key", "cca", "rca"⟩, fun _ => none, fun _ => 59800, true⟩
    (fun _ => none) stateEmpty (fun _ => rfl)
  exact ⟨h.1, by simpa using h.2⟩

/-- C3 counterexample: the claim's clause that a failing abandon call "does
not change the fact that the function fails with ProvisionTimeout" is false.
With a backend that never assigns and whose abandon endpoint rejects, the
function fails with the abandon error, not with the provision-timeout
error. -/
theorem c3_counterexample :
    (getBuildkitdAddr
      ⟨⟨"task-1", "key", "cca", "rca"⟩, fun _ => none, fun _ => 59800, false⟩
      (fun _ => none) stateEmpty).2.1 = .error .abandonFailed ∧
    Except.error ProvErr.abandonFailed ≠
      (.error .provisionTimeout : Except ProvErr String) := by
  have h := pollLoop_noInstance
    ⟨⟨"task-1", "key", "cca", "rca"⟩, fun _ => none, fun _ => 59800, false⟩
    (fun _ => none) (fun _ => rfl) 60000 0 0 (by omega)
  refine ⟨by simpa using h.2, ?_⟩
  intro hcontra
  exact absurd (Except.error.inj hcontra) (by decide)

/-- C8 (amended): `getBuildkitdAddr` arms a single 30000 ms abort timer for
the whole function — armed once, before the task-creation request, and cleared
once, in the `finally` block as the very last action.  Its
`AbortController` signal is never attached to any request, so no individual
status query is bounded by it: each query in the trace runs for exactly its
backend-determined duration, however large. -/
theorem c8_single_function_wide_timer (o : ProvOracle)
    (env : String → Option String) (st : StateFile) :
    ∃ mid,
      (getBuildkitdAddr o env st).1 =
        .armTimeout 30000 :: .createTask :: (mid ++ [.clearTimeoutEv]) ∧
      (∀ ms, Ev.armTimeout ms ∉ mid) ∧
      Ev.clearTimeoutEv ∉ mid ∧
      (∀ j d, Ev.pollStatus j d ∈ mid → d = o.pollDur j) := by
  refine ⟨(pollLoop o env 0 0).1, rfl, ?_, ?_, ?_⟩
  · intro ms hmem
    rcases pollLoop_events o env 60000 0 0 (by omega) _ hmem with ⟨j, hj⟩ | h | ⟨id, hid⟩ <;>
      simp_all
  · intro hmem
    rcases pollLoop_events o env 60000 0 0 (by omega) _ hmem with ⟨j, hj⟩ | h | ⟨id, hid⟩ <;>
      simp_all
  · intro j d hmem
    rcases pollLoop_events o env 60000 0 0 (by omega) _ hmem with ⟨j', hj⟩ | h | ⟨id, hid⟩ <;>
      simp_all

/-- C8 counterexample: no per-query 30000 ms guard exists.  With a first
status query that takes 50000 ms (a hung request) and a second that answers
instantly, the first query runs to completion — well past 30000 ms — and the
loop simply continues with the second query: the poll loop is stalled 50000 ms
by a single request. -/
theorem c8_counterexample :
    Ev.pollStatus 0 50000 ∈ (getBuildkitdAddr
      ⟨⟨"t", "k", "c", "r"⟩, (fun i => if i = 0 then none else some "10.0.0.1"),
        (fun i => if i = 0 then 50000 else 0), true⟩
      (fun _ => none) stateEmpty).1 ∧
    Ev.pollStatus 1 0 ∈ (getBuildkitdAddr
      ⟨⟨"t", "k", "c", "r"⟩, (fun i => if i = 0 then none else some "10.0.0.1"),
        (fun i => if i = 0 then 50000 else 0), true⟩
      (fun _ => none) stateEmpty).1 ∧
    ¬ (∀ j d, Ev.pollStatus j d ∈ (getBuildkitdAddr
      ⟨⟨"t", "k", "c", "r"⟩, (fun i => if i = 0 then none else some "10.0.0.1"),
        (fun i => if i = 0 then 50000 else 0), true⟩
      (fun _ => none) stateEmpty).1 → d ≤ 30000) := by
  have htr : (getBuildkitdAddr
      ⟨⟨"t", "k", "c", "r"⟩, (fun i => if i = 0 then none else some "10.0.0.1"),
        (fun i => if i = 0 then 50000 else 0), true⟩
      (fun _ => none) stateEmpty).1 =
      [.armTimeout 30000, .createTask, .pollStatus 0 50000, .sleepP 200,
       .pollStatus 1 0, .clearTimeoutEv] := by
    show Ev.armTimeout 30000 :: Ev.createTask ::
      ((pollLoop _ _ 0 0).1 ++ [Ev.clearTimeoutEv]) = _
    rw [pollLoop]
    norm_num
    rw [pollLoop]
    norm_num
  rw [htr]
  refine ⟨by simp, by simp, ?_⟩
  intro hall
  have := hall 0 50000 (by simp)
  omega

end SetupBuildx

namespace SetupBuildx

theorem string_length_pos (s : String) (h : s ≠ "") : 0 < s.length := by
  cases s with
  | mk data =>
    cases data with
    | nil => exact absurd rfl h
    | cons a l => simp [String.length]

/-- The sticky teardown block is empty when the recorded flag reads false. -/
theorem stickyTeardown_false (po : PostOracle) : stickyTeardown false po = [] := rfl

/-- Complete membership characterization of the sticky-disk `post` trace:
an event occurs iff it is the debug-log capture under its flag, or part of the
builder-removal group (guarded by cleanup, driver, name, and existence), or
the certificate cleanup (guarded by cleanup and the directory check). -/
theorem postMain_mem_iff (env : String → Option String) (po : PostOracle) (e : Ev) :
    e ∈ postMain env po ↔
      (e = .dockerLogs ∧
        (IsDebugExport env && decide ((containerNameExport env).length > 0)) = true) ∨
      (cleanupExport env = true ∧
        (builderDriverExport env != "docker" &&
          decide ((builderNameExport env).length > 0)) = true ∧
        po.builderExists = true ∧
        (e = .stopBuilder ∨ e ∈ stickyTeardown (isStickyDisksEnabledExport env) po ∨
          e = .rmBuilder)) ∨
      (cleanupExport env = true ∧
        (decide ((certsDirExport env).length > 0) && po.certsDirOnDisk) = true ∧
        e = .rmCerts) := by
  by_cases h1 : (IsDebugExport env && decide ((containerNameExport env).length > 0)) = true <;>
  by_cases h2 : cleanupExport env = true <;>
  by_cases h3 : (builderDriverExport env != "docker" &&
    decide ((builderNameExport env).length > 0)) = true <;>
  by_cases h4 : po.builderExists = true <;>
  by_cases h5 : (decide ((certsDirExport env).length > 0) && po.certsDirOnDisk) = true <;>
    simp [postMain, h1, h2, h3, h4, h5] <;>
    tauto

end SetupBuildx

namespace SetupBuildx

/-- C4 counterexample: the claim fails on the error path of the sticky
teardown.  With sticky disks recorded enabled but a failing daemon shutdown,
the catch block skips the unmount and the commit-marker write, yet the builder
remove request is still issued: `rmBuilder` occurs although no `touchCommit`
event occurs at all, so the remove is not "issued only after the commit marker
is written". -/
theorem c4_counterexample :
    Ev.rmBuilder ∈ postMain
      (envOf [("cleanup", "true"), ("builderDriver", "remote"),
        ("builderName", "b"), ("isStickyDisksEnabled", "true")])
      ⟨true, false, true, true, true, false⟩ ∧
    (∀ b, Ev.touchCommit b ∉ postMain
      (envOf [("cleanup", "true"), ("builderDriver", "remote"),
        ("builderName", "b"), ("isStickyDisksEnabled", "true")])
      ⟨true, false, true, true, true, false⟩) ∧
    (∀ b, Ev.umountMnt b ∉ postMain
      (envOf [("cleanup", "true"), ("builderDriver", "remote"),
        ("builderName", "b"), ("isStickyDisksEnabled", "true")])
      ⟨true, false, true, true, true, false⟩) := by
  refine ⟨by decide, ?_, ?_⟩ <;> intro b <;> cases b <;> decide

/-- C4 (amended): in a finalization phase that reaches the builder-removal
group (cleanup recorded, non-docker driver, non-empty builder name, existing
builder) with sticky disks recorded enabled, *and in which the shutdown,
unmount, marker-directory and marker-write steps all succeed*, the trace
contains the contiguous block stop, shutdown, unmount, marker-directory,
commit-marker, remove — in that exact order, the remove strictly after the
marker write.  (On a failure inside the sequence the remaining steps are
skipped and the remove request is issued anyway, as the counterexample
shows.) -/
theorem c4_sticky_sequence_order (env : String → Option String) (po : PostOracle)
    (hc : cleanupExport env = true)
    (hd : builderDriverExport env ≠ "docker")
    (hn : builderNameExport env ≠ "")
    (hs : isStickyDisksEnabledExport env = true)
    (he : po.builderExists = true)
    (h1 : po.shutdownOk = true) (h2 : po.umountOk = true)
    (h3 : po.mkdirStickyOk = true) (h4 : po.touchOk = true) :
    ∃ pre suf, postMain env po =
      pre ++ [.stopBuilder, .shutdownB true, .umountMnt true, .mkdirSticky true,
              .touchCommit true, .rmBuilder] ++ suf := by
  refine ⟨if (IsDebugExport env && decide ((containerNameExport env).length > 0)) = true
    then [.dockerLogs] else [],
    if (decide ((certsDirExport env).length > 0) && po.certsDirOnDisk) = true
    then [.rmCerts] else [], ?_⟩
  have hd' : (builderDriverExport env != "docker") = true := by
    simp [bne_iff_ne, hd]
  have hn' : 0 < (builderNameExport env).length := string_length_pos _ hn
  simp [postMain, stickyTeardown, hc, hd', hn', hs, he, h1, h2, h3, h4]

/-- Witness for C4's amended statement at a concrete recorded state and an
all-success oracle. -/
theorem c4_sticky_sequence_order_witness :
    ∃ pre suf, postMain
      (envOf [("cleanup", "true"), ("builderDriver", "remote"),
        ("builderName", "b"), ("isStickyDisksEnabled", "true")])
      ⟨true, true, true, true, true, false⟩ =
      pre ++ [.stopBuilder, .shutdownB true, .umountMnt true, .mkdirSticky true,
              .touchCommit true, .rmBuilder] ++ suf := by
  exact c4_sticky_sequence_order _ _ (by decide) (by decide) (by decide)
    (by decide) rfl rfl rfl rfl rfl

/-- C10: if the existence check for the recorded builder returns false at
teardown time, the `else` branch only logs; none of the builder stop, the
daemon shutdown, the unmount, the marker-directory creation, the commit-marker
write, or the builder remove request occur — for every recorded state,
including one with sticky disks enabled, so the commit marker is never written
in that case. -/
theorem c10_builder_missing_skips_all (env : String → Option String)
    (po : PostOracle) (he : po.builderExists = false) :
    Ev.stopBuilder ∉ postMain env po ∧
    (∀ b, Ev.shutdownB b ∉ postMain env po) ∧
    (∀ b, Ev.umountMnt b ∉ postMain env po) ∧
    (∀ b, Ev.mkdirSticky b ∉ postMain env po) ∧
    (∀ b, Ev.touchCommit b ∉ postMain env po) ∧
    Ev.rmBuilder ∉ postMain env po := by
  have hne : ¬ po.builderExists = true := by simp [he]
  refine ⟨?_, fun b => ?_, fun b => ?_, fun b => ?_, fun b => ?_, ?_⟩
  all_goals
    intro hmem
    rcases (postMain_mem_iff env po _).mp hmem with ⟨hev, _⟩ | ⟨_, _, hex, _⟩ | ⟨_, _, hev⟩ <;>
      simp_all

/-- Witness for C10 at a state with sticky disks enabled and a missing
builder. -/
theorem c10_builder_missing_skips_all_witness :
    Ev.rmBuilder ∉ postMain
      (envOf [("cleanup", "true"), ("builderDriver", "remote"),
        ("builderName", "b"), ("isStickyDisksEnabled", "true")])
      ⟨false, true, true, true, true, true⟩ ∧
    (∀ b, Ev.touchCommit b ∉ postMain
      (envOf [("cleanup", "true"), ("builderDriver", "remote"),
        ("builderName", "b"), ("isStickyDisksEnabled", "true")])
      ⟨false, true, true, true, true, true⟩) := by
  have h := c10_builder_missing_skips_all
    (envOf [("cleanup", "true"), ("builderDriver", "remote"),
      ("builderName", "b"), ("isStickyDisksEnabled", "true")])
    ⟨false, true, true, true, true, true⟩ rfl
  exact ⟨h.2.2.2.2.2, h.2.2.2.2.1⟩

end SetupBuildx

namespace SetupBuildx

/-- C6: when the recorded cleanup flag reads false, both `post` variants
short-circuit before the builder-removal and certificate-cleanup steps: every
event of the sticky-disk variant's trace is the debug-log capture, and every
event of the remote variant's trace is the debug-log capture or the completion
report; within that, the debug-log capture occurs iff the debug flag and a
recorded container name say so, and the completion report occurs iff the
recorded driver is `"remote"` and a builder name was recorded — each governed
solely by its own recorded flags. -/
theorem c6_cleanup_short_circuit
    (envA : String → Option String) (oA : PostOracle)
    (envB : String → Option String) (oB : PostOracleB)
    (hA : cleanupExport envA = false) (hB : cleanupExport envB = false) :
    (∀ e ∈ postMain envA oA, e = Ev.dockerLogs) ∧
    (Ev.dockerLogs ∈ postMain envA oA ↔
      (IsDebugExport envA && decide ((containerNameExport envA).length > 0)) = true) ∧
    (∀ e ∈ (postRemote envB oB).1,
      e = Ev.dockerLogs ∨ ∃ id ok, e = Ev.reportCompleted id ok) ∧
    (Ev.dockerLogs ∈ (postRemote envB oB).1 ↔
      (IsDebugExport envB && decide ((containerNameExport envB).length > 0)) = true) ∧
    ((∃ id ok, Ev.reportCompleted id ok ∈ (postRemote envB oB).1) ↔
      (builderDriverExport envB == "remote" &&
        decide ((builderNameExport envB).length > 0)) = true) := by
  have hrest : postRemoteRest envB oB = [] := by
    simp [postRemoteRest, hB]
  have hpr : (postRemote envB oB).1 =
      (if (IsDebugExport envB && decide ((containerNameExport envB).length > 0)) = true
        then [Ev.dockerLogs] else []) ++
      (if (builderDriverExport envB == "remote" &&
          decide ((builderNameExport envB).length > 0)) = true
        then [Ev.reportCompleted (blacksmithBuildTaskIdExport envB) oB.reportOk]
        else []) := by
    by_cases hbr : (builderDriverExport envB == "remote" &&
        decide ((builderNameExport envB).length > 0)) = true <;>
      by_cases hro : oB.reportOk = true <;>
        simp [postRemote, hrest, hbr, hro]
  refine ⟨?_, ?_, ?_, ?_, ?_⟩
  · intro e hmem
    rcases (postMain_mem_iff envA oA e).mp hmem with ⟨hev, _⟩ | ⟨hcl, _⟩ | ⟨hcl, _⟩ <;>
      simp_all
  · constructor
    · intro hmem
      rcases (postMain_mem_iff envA oA _).mp hmem with ⟨_, hflag⟩ | ⟨hcl, _⟩ | ⟨hcl, _⟩ <;>
        simp_all
    · intro hflag
      exact (postMain_mem_iff envA oA _).mpr (Or.inl ⟨rfl, hflag⟩)
  · intro e hmem
    rw [hpr] at hmem
    rcases List.mem_append.mp hmem with h | h
    · split at h
      · simp at h
        exact Or.inl h
      · simp at h
    · split at h
      · simp at h
        exact Or.inr ⟨_, _, h⟩
      · simp at h
  · rw [hpr]
    by_cases hdbg : (IsDebugExport envB && decide ((containerNameExport envB).length > 0)) = true <;>
      by_cases hbr : (builderDriverExport envB == "remote" &&
        decide ((builderNameExport envB).length > 0)) = true <;>
      simp [hdbg, hbr]
  · rw [hpr]
    by_cases hdbg : (IsDebugExport envB && decide ((containerNameExport envB).length > 0)) = true <;>
      by_cases hbr : (builderDriverExport envB == "remote" &&
        decide ((builderNameExport envB).length > 0)) = true <;>
      simp [hdbg, hbr]

/-- Witness for C6 at recorded states with cleanup false: the sticky-disk
variant with the debug flag set, and the remote variant with a remote driver
and recorded builder name. -/
theorem c6_cleanup_short_circuit_witness :
    Ev.dockerLogs ∈ postMain
      (envOf [("cleanup", "false"), ("isDebug", "true"), ("containerName", "c"),
        ("builderName", "b"), ("builderDriver", "remote"),
        ("isStickyDisksEnabled", "true")])
      ⟨true, true, true, true, true, true⟩ ∧
    (∀ e ∈ postMain
      (envOf [("cleanup", "false"), ("isDebug", "true"), ("containerName", "c"),
        ("builderName", "b"), ("builderDriver", "remote"),
        ("isStickyDisksEnabled", "true")])
      ⟨true, true, true, true, true, true⟩, e = Ev.dockerLogs) ∧
    (∃ id ok, Ev.reportCompleted id ok ∈ (postRemote
      (envOf [("cleanup", "false"), ("builderName", "b"),
        ("builderDriver", "remote"), ("blacksmithBuildTaskId", "t1")])
      ⟨true, true, true⟩).1) := by
  have h := c6_cleanup_short_circuit
    (envOf [("cleanup", "false"), ("isDebug", "true"), ("containerName", "c"),
      ("builderName", "b"), ("builderDriver", "remote"),
      ("isStickyDisksEnabled", "true")])
    ⟨true, true, true, true, true, true⟩
    (envOf [("cleanup", "false"), ("builderName", "b"),
      ("builderDriver", "remote"), ("blacksmithBuildTaskId", "t1")])
    ⟨true, true, true⟩
    (by decide) (by decide)
  exact ⟨h.2.1.mpr (by decide), h.1, h.2.2.2.2.mpr (by decide)⟩

end SetupBuildx

namespace SetupBuildx

/-- An event inside the sticky teardown block implies the recorded flag read
true (the block is empty otherwise). -/
theorem mem_stickyTeardown_sticky (s : Bool) (po : PostOracle) (e : Ev)
    (h : e ∈ stickyTeardown s po) : s = true := by
  cases s
  · simp [stickyTeardown] at h
  · rfl

/-- The state records written after the sticky-disk section of `main` never
touch the `isStickyDisksEnabled` key. -/
theorem mainRestState_lookup_sticky (r : RestInputs) (st : StateFile) :
    lookupState (mainRestState r st) "isStickyDisksEnabled" =
      lookupState st "isStickyDisksEnabled" := by
  by_cases h1 : (!r.standalone && r.dockerContainerDriver) = true <;>
    by_cases h2 : r.debugFlag = true <;>
      simp [mainRestState, h1, h2, setCleanup, setStandalone, setBuilderName,
        setBuilderDriver, setCertsDir, setContainerName, setDebug,
        lookupState_save]

/-- The sticky-disk section records the `isStickyDisksEnabled` key (with the
value `"true"`) exactly when the metadata probe enabled the feature and the
block device was present — before, and independently of, the mount attempt's
outcome. -/
theorem mainStickyPhase_state_lookup (o : MainOracle) (st : StateFile)
    (hst : lookupState st "isStickyDisksEnabled" = none) :
    lookupState (mainStickyPhase o st).2.2 "isStickyDisksEnabled" =
      if ((mainStickyPhase o st).2.1 && o.blockDevicePresent) = true
      then some "true" else none := by
  unfold mainStickyPhase
  rcases hs : sendLoadStickyDisksRequest o.procEnv with ⟨tr, res⟩
  cases res with
  | error e => simp [hst]
  | ok u =>
    rcases hr : (retryCommand 1 o.metadataCmds).2 with e2 | v
    · simp [hr, hst]
    · by_cases hv : ((v == "true") && o.blockDevicePresent) = true
      · cases o.mkdirOk <;> cases o.mountOk <;>
          simp [hr, hv, setStickyDisksEnabled, lookupState_save_same]
      · simp [hr, hv, hst]

end SetupBuildx

namespace SetupBuildx

/-- C2 (amended): in the combined two-phase execution, the finalization phase
attempts the unmount only if the initialization phase recorded the
`isStickyDisksEnabled` flag, and that flag is recorded exactly when the
metadata probe enabled sticky disks and the block device was present — the
record is written *before* the mount attempt, so a successful mount is not
required (as the counterexample shows). -/
theorem c2_unmount_requires_recorded_flag (o : MainOracle) (r : RestInputs)
    (po : PostOracle) (b : Bool)
    (hmem : Ev.umountMnt b ∈ postMain (envOf (mainRecordedState o r)) po) :
    (mainStickyPhase o stateEmpty).2.1 = true ∧
    o.blockDevicePresent = true ∧
    lookupState (mainRecordedState o r) "isStickyDisksEnabled" = some "true" := by
  have hsticky : isStickyDisksEnabledExport (envOf (mainRecordedState o r)) = true := by
    rcases (postMain_mem_iff _ po _).mp hmem with ⟨hev, _⟩ | ⟨_, _, _, hgrp⟩ | ⟨_, _, hev⟩
    · exact absurd hev (by simp)
    · rcases hgrp with hev | hin | hev
      · exact absurd hev (by simp)
      · exact mem_stickyTeardown_sticky _ po _ hin
      · exact absurd hev (by simp)
    · exact absurd hev (by simp)
  have hlook : lookupState (mainRecordedState o r) "isStickyDisksEnabled" =
      lookupState (mainStickyPhase o stateEmpty).2.2 "isStickyDisksEnabled" := by
    unfold mainRecordedState
    exact mainRestState_lookup_sticky r _
  have hphase := mainStickyPhase_state_lookup o stateEmpty rfl
  rw [isStickyDisksEnabledExport] at hsticky
  have henv : envOf (mainRecordedState o r) "isStickyDisksEnabled" =
      lookupState (mainRecordedState o r) "isStickyDisksEnabled" := rfl
  rw [henv, hlook, hphase] at hsticky
  by_cases hcond : ((mainStickyPhase o stateEmpty).2.1 && o.blockDevicePresent) = true
  · have hsplit : (mainStickyPhase o stateEmpty).2.1 = true ∧
        o.blockDevicePresent = true := by
      simpa using hcond
    refine ⟨hsplit.1, hsplit.2, ?_⟩
    rw [hlook, hphase, if_pos hcond]
  · rw [if_neg hcond] at hsticky
    simp [jsTruthy] at hsticky

end SetupBuildx

namespace SetupBuildx

/-- C2 counterexample: the mount in the initialization phase *fails*
(`mountDev false`, no successful mount ever happens), yet the finalization
phase attempts the unmount — because the `isStickyDisksEnabled` record is
written before the mount is attempted.  So "unmount only if mount previously
succeeded" is false on the code. -/
theorem c2_counterexample :
    Ev.mountDev false ∈ (mainStickyPhase
      ⟨fun _ => some "7", fun _ => .ok "true", true, true, false⟩ stateEmpty).1 ∧
    Ev.mountDev true ∉ (mainStickyPhase
      ⟨fun _ => some "7", fun _ => .ok "true", true, true, false⟩ stateEmpty).1 ∧
    Ev.umountMnt true ∈ postMain
      (envOf (mainRecordedState
        ⟨fun _ => some "7", fun _ => .ok "true", true, true, false⟩
        ⟨true, false, "builder", "", false, "", false⟩))
      ⟨true, true, true, true, true, false⟩ := by
  have hretry : retryCommand 1 (fun _ : Nat => (Except.ok "true" : Except Unit String)) =
      ([.attempt 0], .ok "true") := by
    simp [retryCommand]
    rw [retryAux]
    simp [goodResult]
    decide
  have hphase : mainStickyPhase
      ⟨fun _ => some "7", fun _ => .ok "true", true, true, false⟩ stateEmpty =
      ([.sendLoad "7", .attempt 0, .checkBlock true, .mkdirMnt true, .mountDev false,
        .warnSticky, .findPort], true, [("isStickyDisksEnabled", "true")]) := by
    simp [mainStickyPhase, sendLoadStickyDisksRequest, getEnvVar, hretry,
      setStickyDisksEnabled, saveState, stateEmpty]
  have hrec : mainRecordedState
      ⟨fun _ => some "7", fun _ => .ok "true", true, true, false⟩
      ⟨true, false, "builder", "", false, "", false⟩ =
      mainRestState ⟨true, false, "builder", "", false, "", false⟩
        [("isStickyDisksEnabled", "true")] := by
    rw [mainRecordedState, hphase]
  refine ⟨?_, ?_, ?_⟩
  · rw [hphase]; decide
  · rw [hphase]; decide
  · rw [hrec]; decide

/-- Witness for C2's amended statement at the same initialization oracle (with
a succeeding mount this time) and an existing builder. -/
theorem c2_unmount_requires_recorded_flag_witness :
    (mainStickyPhase
      ⟨fun _ => some "7", fun _ => .ok "true", true, true, true⟩ stateEmpty).2.1 = true ∧
    (true : Bool) = true ∧
    lookupState (mainRecordedState
      ⟨fun _ => some "7", fun _ => .ok "true", true, true, true⟩
      ⟨true, false, "builder", "", false, "", false⟩)
      "isStickyDisksEnabled" = some "true" := by
  have hretry : retryCommand 1 (fun _ : Nat => (Except.ok "true" : Except Unit String)) =
      ([.attempt 0], .ok "true") := by
    simp [retryCommand]
    rw [retryAux]
    simp [goodResult]
    decide
  have hphase : mainStickyPhase
      ⟨fun _ => some "7", fun _ => .ok "true", true, true, true⟩ stateEmpty =
      ([.sendLoad "7", .attempt 0, .checkBlock true, .mkdirMnt true, .mountDev true,
        .findPort], true, [("isStickyDisksEnabled", "true")]) := by
    simp [mainStickyPhase, sendLoadStickyDisksRequest, getEnvVar, hretry,
      setStickyDisksEnabled, saveState, stateEmpty]
  have hm : Ev.umountMnt true ∈ postMain
      (envOf (mainRecordedState
        ⟨fun _ => some "7", fun _ => .ok "true", true, true, true⟩
        ⟨true, false, "builder", "", false, "", false⟩))
      ⟨true, true, true, true, true, false⟩ := by
    rw [mainRecordedState, hphase]
    decide
  exact c2_unmount_requires_recorded_flag _ _ _ true hm

end SetupBuildx

namespace SetupBuildx

/-- C9 (amended): `getEnvVar` does throw when the value is absent (or empty),
but the sole call site — the `VSOCK_PORT` read inside
`sendLoadStickyDisksRequest` — is reached only inside `main`'s sticky-disk
try/catch, which logs a warning and carries on.  So an absent `VSOCK_PORT`
does not abort initialization: the sticky-disk feature is silently disabled,
a warning is emitted, no `socat` request is sent, and `main` proceeds to
`findPort` and the rest of the setup. -/
theorem c9_missing_vsock_is_nonfatal (o : MainOracle) (st : StateFile)
    (henv : o.procEnv "VSOCK_PORT" = none) :
    getEnvVar o.procEnv "VSOCK_PORT" = .error () ∧
    (mainStickyPhase o st).2.1 = false ∧
    Ev.warnSticky ∈ (mainStickyPhase o st).1 ∧
    Ev.findPort ∈ (mainStickyPhase o st).1 ∧
    (∀ p, Ev.sendLoad p ∉ (mainStickyPhase o st).1) := by
  have hge : getEnvVar o.procEnv "VSOCK_PORT" = .error () := by
    simp [getEnvVar, henv]
  have hsend : sendLoadStickyDisksRequest o.procEnv = ([], .error ()) := by
    simp [sendLoadStickyDisksRequest, hge]
  refine ⟨hge, ?_, ?_, ?_, ?_⟩ <;>
    simp [mainStickyPhase, hsend]

/-- Witness for C9's amended statement at an environment with no variables
set at all. -/
theorem c9_missing_vsock_is_nonfatal_witness :
    getEnvVar (fun _ => none) "VSOCK_PORT" = .error () ∧
    Ev.warnSticky ∈ (mainStickyPhase
      ⟨fun _ => none, fun _ => .error (), false, true, true⟩ stateEmpty).1 ∧
    Ev.findPort ∈ (mainStickyPhase
      ⟨fun _ => none, fun _ => .error (), false, true, true⟩ stateEmpty).1 := by
  have h := c9_missing_vsock_is_nonfatal
    ⟨fun _ => none, fun _ => .error (), false, true, true⟩ stateEmpty rfl
  exact ⟨h.1, h.2.2.1, h.2.2.2.1⟩

/-- C9 counterexample: with `VSOCK_PORT` absent the initialization phase does
not abort — the sticky-disk section's whole trace is a warning, the device
probe, and the continuation into `findPort`; the `ConfigError` has been
degraded to a warning. -/
theorem c9_counterexample :
    (mainStickyPhase
      ⟨fun _ => none, fun _ => .error (), false, true, true⟩ stateEmpty).1 =
      [.warnSticky, .checkBlock false, .findPort] ∧
    (mainStickyPhase
      ⟨fun _ => none, fun _ => .error (), false, true, true⟩ stateEmpty).2.1 = false := by
  constructor <;>
    simp [mainStickyPhase, sendLoadStickyDisksRequest, getEnvVar]

end SetupBuildx
